import Mathlib

/-!
Verification of the `fluids` observer-protocol library (src/src/index.ts).

The embedding models the JavaScript runtime behaviour of the source:

* A `FluidObj` is the protocol-relevant state of a JS object: its hidden
  getter slot (the symbol `FluidValue.get`), its hidden observer-set slot
  (the symbol `FluidValue.observers`), and whether the optional lifecycle
  hooks `observerAdded` / `observerRemoved` are present on it.
* Getter functions are identified by numbers; an environment
  `genv : Nat → Val` maps each getter identifier to the value it returns
  when invoked.  `getFluidValue` is therefore parametric in `genv`: the
  getter is consulted afresh on every call, nothing is cached.
* The getter slot is `Option Nat`: `some g` is an installed getter function
  (a JS function object, hence truthy), `none` is the absent slot
  (reads as `undefined`, falsy).
* The observer slot is `Option (List Nat)`: `some l` is a JS `Set` holding
  the observers (identified by number, reference identity = numeric
  equality) in insertion order; `none` covers both the absent slot and the
  explicit `null` written by the reset branch of `removeFluidObserver`
  (both read back as falsy values, and `x || null` maps both to `null`,
  so they are observationally identical in every code path).
* A JS `Set` never holds duplicates, iterates in insertion order, `add`
  appends a missing element and leaves a present one where it is, and
  `delete` removes the (unique) occurrence.  These operations are modelled
  on lists by `setHas`, `setAdd`, `setDelete`, `setSize`.
* `Val` models a general JS value: `null`, `undefined`, booleans, numbers,
  strings, and objects (carrying their `FluidObj` state).  Reading the
  hidden slot of a value follows JS semantics: on `null`/`undefined` the
  property access throws a TypeError (modelled as `Except.error ()`), on
  other primitives the value is boxed and the slot reads as `undefined`,
  and on an object the slot content is returned.
* Effects are made explicit: the mutation operations return the new object
  state together with the list of lifecycle-hook invocations they
  performed, and the dispatch operations return the trace of observer
  invocations together with the error, if any, an observer raised.
-/

/-- Protocol-relevant hidden state of a JS object: the two hidden slots of
the fluids protocol and the presence of the two optional lifecycle hooks. -/
structure FluidObj where
  get : Option Nat
  observers : Option (List Nat)
  hasObserverAdded : Bool
  hasObserverRemoved : Bool
deriving DecidableEq, Repr

/-- A JavaScript value: the primitives the protocol distinguishes plus
objects carrying their protocol state. -/
inductive Val where
  | vnull
  | vundef
  | vbool (b : Bool)
  | vnum (n : Int)
  | vstr (s : String)
  | vobj (o : FluidObj)
deriving DecidableEq, Repr

/-- JS truthiness of a value.  `null`, `undefined`, `false`, `0`, and the
empty string are falsy; every object (in particular every function and
every `Set`, even an empty one) is truthy. -/
def truthy : Val → Bool
  | .vnull => false
  | .vundef => false
  | .vbool b => b
  | .vnum n => n != 0
  | .vstr s => s != ""
  | .vobj _ => true

/-- Reading `arg[FluidValue.get]` under JS semantics: a TypeError on
`null`/`undefined`, `undefined` (no getter) on boxed primitives, and the
slot content on objects. -/
def readGet : Val → Except Unit (Option Nat)
  | .vnull => .error ()
  | .vundef => .error ()
  | .vobj o => .ok o.get
  | _ => .ok none

/-- Reading `arg[FluidValue.observers]` under JS semantics, analogous to
`readGet`. -/
def readObservers : Val → Except Unit (Option (List Nat))
  | .vnull => .error ()
  | .vundef => .error ()
  | .vobj o => .ok o.observers
  | _ => .ok none

/-- Embedding of `hasFluidValue`, the source line
`Boolean(arg && arg[$get])`: the `&&` short-circuits on a falsy `arg`, so
the slot is only read on truthy values; the result is the truthiness of
the slot content (an installed getter function is truthy, an absent slot
reads as the falsy `undefined`). -/
def hasFluidValueE (arg : Val) : Except Unit Bool :=
  if truthy arg then
    match readGet arg with
    | .error e => .error e
    | .ok g => .ok g.isSome
  else .ok false

/-- Embedding of `getFluidValue`, the source line
`arg && arg[$get] ? arg[$get]() : arg`: on a truthy argument with an
installed getter, the getter is invoked (resolved through `genv`);
otherwise the argument passes through unchanged. -/
def getFluidValueE (genv : Nat → Val) (arg : Val) : Except Unit Val :=
  if truthy arg then
    match readGet arg with
    | .error e => .error e
    | .ok (some g) => .ok (genv g)
    | .ok none => .ok arg
  else .ok arg

/-- Embedding of `getFluidObservers`, the source line
`target[$observers] || null`: the slot is read unconditionally (so the
read itself can throw), a present `Set` is truthy and returned as is, and
a falsy slot content (`undefined` or `null`) becomes `null`. -/
def getFluidObserversE (target : Val) : Except Unit (Option (List Nat)) :=
  match readObservers target with
  | .error e => .error e
  | .ok (some l) => .ok (some l)
  | .ok none => .ok none

/-- Classifier used to phrase the theorems: a value is fluid when it is an
object carrying an installed getter. -/
def isFluid : Val → Bool
  | .vobj o => o.get.isSome
  | _ => false

/-- Membership test of a JS `Set` (`observers.has(observer)`), reference
identity being numeric equality of observer identifiers. -/
def setHas (l : List Nat) (o : Nat) : Bool := l.contains o

/-- Insertion into a JS `Set` (`observers.add(observer)`): a missing
element is appended at the end of the iteration order, a present element
leaves the set unchanged. -/
def setAdd (l : List Nat) (o : Nat) : List Nat :=
  if l.contains o then l else l ++ [o]

/-- Deletion from a JS `Set` (`observers.delete(observer)`): removes the
occurrence of the element, preserving the order of the rest. -/
def setDelete (l : List Nat) (o : Nat) : List Nat := l.erase o

/-- Size of a JS `Set` (`observers.size`). -/
def setSize (l : List Nat) : Nat := l.length

/-- A recorded lifecycle-hook invocation: `observerAdded(count, observer)`
or `observerRemoved(count, observer)` on the target. -/
inductive Hook where
  | added (count : Nat) (observer : Nat)
  | removed (count : Nat) (observer : Nat)
deriving DecidableEq, Repr

/-- Result of `addFluidObserver`: the updated target state, the lifecycle
hooks fired, and the return value (the observer argument). -/
structure AddResult where
  target : FluidObj
  hooks : List Hook
  ret : Nat
deriving DecidableEq, Repr

/-- Result of `removeFluidObserver` (which returns void): the updated
target state and the lifecycle hooks fired. -/
structure RemoveResult where
  target : FluidObj
  hooks : List Hook
deriving DecidableEq, Repr

/-- Embedding of `addFluidObserver` from src/src/index.ts.  Guarded by
`if (target[$get])`: a target without an installed getter is left
untouched.  Otherwise the observer set is created lazily when the slot is
falsy (`setHidden(target, $observers, observers = new Set())`), and when
the observer is not yet a member it is inserted and, if the target has the
`observerAdded` hook, the hook fires with the new size and the observer.
When the observer is already a member nothing changes (the lazily created
set was necessarily already present, since a fresh empty set contains
nothing).  The observer argument is returned in every path. -/
def addFluidObserver (t : FluidObj) (observer : Nat) : AddResult :=
  if t.get.isSome then
    let observers := t.observers.getD []
    if setHas observers observer then
      { target := t, hooks := [], ret := observer }
    else
      let observers2 := setAdd observers observer
      { target := { t with observers := some observers2 },
        hooks :=
          if t.hasObserverAdded then [Hook.added (setSize observers2) observer]
          else [],
        ret := observer }
  else { target := t, hooks := [], ret := observer }

/-- Embedding of `removeFluidObserver` from src/src/index.ts.  A falsy
observer slot or a set not containing the observer means nothing happens.
Otherwise `count = observers.size - 1` is computed first; a truthy count
deletes the observer from the set, a zero count resets the slot
(`setHidden(target, $observers, null)`); then, if the target has the
`observerRemoved` hook, the hook fires with `count` and the observer. -/
def removeFluidObserver (t : FluidObj) (observer : Nat) : RemoveResult :=
  match t.observers with
  | some observers =>
    if setHas observers observer then
      let count := setSize observers - 1
      { target :=
          if count ≠ 0 then { t with observers := some (setDelete observers observer) }
          else { t with observers := none },
        hooks :=
          if t.hasObserverRemoved then [Hook.removed count observer]
          else [] }
    else { target := t, hooks := [] }
  | none => { target := t, hooks := [] }

/-- Number of observers registered on a slot: the size of the present set,
zero for the absent/null slot. -/
def obsSize : Option (List Nat) → Nat
  | some l => l.length
  | none => 0

/-- Claim C1: for every non-fluid input (null, undefined, primitives,
objects without the getter slot) `getFluidValue` returns the input
unchanged and `hasFluidValue` returns false; for every fluid object
`hasFluidValue` returns true and `getFluidValue` returns the result of
invoking the stored getter with no arguments.  The statement is parametric
in the getter environment `genv`, so the getter result is consulted afresh
on every call (nothing is cached in `getFluidValueE`). -/
theorem c1_fluid_value_queries (genv : Nat → Val) (x : Val) :
    (isFluid x = false →
      hasFluidValueE x = .ok false ∧ getFluidValueE genv x = .ok x) ∧
    (∀ o g, x = .vobj o → o.get = some g →
      hasFluidValueE x = .ok true ∧ getFluidValueE genv x = .ok (genv g)) := by
  constructor
  · intro hx
    cases x with
    | vobj o =>
      cases hg : o.get with
      | some g => simp [isFluid, hg] at hx
      | none => simp [hasFluidValueE, getFluidValueE, truthy, readGet, hg]
    | vbool b => cases b <;> simp [hasFluidValueE, getFluidValueE, truthy, readGet]
    | vnum n =>
      by_cases hn : n = 0 <;>
        simp [hasFluidValueE, getFluidValueE, truthy, readGet, hn]
    | vstr s =>
      by_cases hs : s = "" <;>
        simp [hasFluidValueE, getFluidValueE, truthy, readGet, hs]
    | vnull => simp [hasFluidValueE, getFluidValueE, truthy]
    | vundef => simp [hasFluidValueE, getFluidValueE, truthy]
  · intro o g hx hg
    subst hx
    simp [hasFluidValueE, getFluidValueE, truthy, readGet, hg]

/-- Witness for C1 at concrete inputs: the number 42 and a bare object are
passed through and reported non-fluid; an object with getter 0 in an
environment sending getter 0 to the number 7 is reported fluid and
unwraps to 7. -/
theorem c1_fluid_value_queries_witness :
    (hasFluidValueE (Val.vnum 42) = .ok false ∧
      getFluidValueE (fun _ => Val.vnum 7) (Val.vnum 42) = .ok (Val.vnum 42)) ∧
    (hasFluidValueE (Val.vobj ⟨some 0, none, false, false⟩) = .ok true ∧
      getFluidValueE (fun _ => Val.vnum 7) (Val.vobj ⟨some 0, none, false, false⟩)
        = .ok (Val.vnum 7)) := by
  constructor
  · exact (c1_fluid_value_queries (fun _ => Val.vnum 7) (Val.vnum 42)).1 (by decide)
  · exact (c1_fluid_value_queries (fun _ => Val.vnum 7)
      (Val.vobj ⟨some 0, none, false, false⟩)).2 ⟨some 0, none, false, false⟩ 0 rfl rfl

/-- Counterexample to claim C2 as stated: `getFluidObservers` reads the
observer slot without a null guard (`target[$observers] || null`), so
applying it to `null` throws a TypeError instead of returning a value. -/
theorem c2_totality_counterexample :
    getFluidObserversE Val.vnull = .error () := rfl

/-- Claim C2 (amended): `hasFluidValue` and `getFluidValue` are total for
every input (their `arg && ...` guard short-circuits before the slot read);
`getFluidObservers` is total for every input other than `null` and
`undefined` (primitives box and yield the null sentinel), but its
unguarded slot read throws a TypeError on `null`/`undefined`. -/
theorem c2_query_totality (genv : Nat → Val) (x : Val) :
    (∃ b, hasFluidValueE x = .ok b) ∧
    (∃ v, getFluidValueE genv x = .ok v) ∧
    (x ≠ Val.vnull → x ≠ Val.vundef →
      ∃ s, getFluidObserversE x = .ok s) := by
  refine ⟨?_, ?_, ?_⟩
  · cases x with
    | vobj o =>
      refine ⟨o.get.isSome, ?_⟩
      simp [hasFluidValueE, truthy, readGet]
    | vbool b =>
      refine ⟨false, ?_⟩
      cases b <;> simp [hasFluidValueE, truthy, readGet]
    | vnum n =>
      refine ⟨false, ?_⟩
      by_cases hn : n = 0 <;> simp [hasFluidValueE, truthy, readGet, hn]
    | vstr s =>
      refine ⟨false, ?_⟩
      by_cases hs : s = "" <;> simp [hasFluidValueE, truthy, readGet, hs]
    | vnull => exact ⟨false, rfl⟩
    | vundef => exact ⟨false, rfl⟩
  · cases x with
    | vobj o =>
      cases hg : o.get with
      | some g =>
        refine ⟨genv g, ?_⟩
        simp [getFluidValueE, truthy, readGet, hg]
      | none =>
        refine ⟨Val.vobj o, ?_⟩
        simp [getFluidValueE, truthy, readGet, hg]
    | vbool b =>
      refine ⟨Val.vbool b, ?_⟩
      cases b <;> simp [getFluidValueE, truthy, readGet]
    | vnum n =>
      refine ⟨Val.vnum n, ?_⟩
      by_cases hn : n = 0 <;> simp [getFluidValueE, truthy, readGet, hn]
    | vstr s =>
      refine ⟨Val.vstr s, ?_⟩
      by_cases hs : s = "" <;> simp [getFluidValueE, truthy, readGet, hs]
    | vnull => exact ⟨Val.vnull, rfl⟩
    | vundef => exact ⟨Val.vundef, rfl⟩
  · intro hn hu
    cases x with
    | vobj o =>
      refine ⟨o.observers, ?_⟩
      cases h : o.observers <;> simp [getFluidObserversE, readObservers, h]
    | vbool b => exact ⟨none, rfl⟩
    | vnum n => exact ⟨none, rfl⟩
    | vstr s => exact ⟨none, rfl⟩
    | vnull => exact absurd rfl hn
    | vundef => exact absurd rfl hu

/-- Claim C5: subscription is idempotent.  On a fluid target with no
observers yet and the `observerAdded` hook present, the first
`addFluidObserver` leaves a set of size 1 (exactly the added observer) and
fires `observerAdded(1, observer)` once; the second call with the same
observer changes nothing, fires no hook, and still returns the observer. -/
theorem c5_idempotent_subscribe (t : FluidObj) (o : Nat)
    (hg : t.get.isSome = true) (hobs : t.observers = none)
    (hha : t.hasObserverAdded = true) :
    (addFluidObserver t o).target.observers = some [o] ∧
    (addFluidObserver t o).hooks = [Hook.added 1 o] ∧
    addFluidObserver (addFluidObserver t o).target o
      = { target := (addFluidObserver t o).target, hooks := [], ret := o } := by
  have h1 : addFluidObserver t o
      = { target := { t with observers := some [o] },
          hooks := [Hook.added 1 o], ret := o } := by
    simp [addFluidObserver, hg, hobs, hha, setHas, setAdd, setSize]
  refine ⟨by rw [h1], by rw [h1], ?_⟩
  rw [h1]
  simp [addFluidObserver, hg, setHas]

/-- Witness for the amended C2 at the primitive input 42: all three query
operations return a value there. -/
theorem c2_query_totality_witness :
    (∃ b, hasFluidValueE (Val.vnum 42) = .ok b) ∧
    (∃ v, getFluidValueE (fun _ => Val.vnull) (Val.vnum 42) = .ok v) ∧
    (∃ s, getFluidObserversE (Val.vnum 42) = .ok s) := by
  have h := c2_query_totality (fun _ => Val.vnull) (Val.vnum 42)
  exact ⟨h.1, h.2.1, h.2.2 (by decide) (by decide)⟩

/-- Witness for C5: a fluid target with getter 0, empty observer slot and
the added hook present; observer 5 added twice. -/
theorem c5_idempotent_subscribe_witness :
    (addFluidObserver ⟨some 0, none, true, false⟩ 5).target.observers = some [5] ∧
    (addFluidObserver ⟨some 0, none, true, false⟩ 5).hooks = [Hook.added 1 5] ∧
    addFluidObserver (addFluidObserver ⟨some 0, none, true, false⟩ 5).target 5
      = { target := (addFluidObserver ⟨some 0, none, true, false⟩ 5).target,
          hooks := [], ret := 5 } :=
  c5_idempotent_subscribe ⟨some 0, none, true, false⟩ 5 rfl rfl rfl

/-- Claim C6: whenever `removeFluidObserver` actually removes a registered
observer from a target carrying the `observerRemoved` hook, the count
passed to the hook equals the post-removal size of the observer slot, in
both the retain branch (`count = size - 1` computed before the delete,
which removes exactly one element) and the reset branch (count 0, slot
reset to absent). -/
theorem c6_removed_hook_count (t : FluidObj) (l : List Nat) (o : Nat)
    (hobs : t.observers = some l) (hmem : setHas l o = true)
    (hhook : t.hasObserverRemoved = true) :
    (removeFluidObserver t o).hooks
      = [Hook.removed (obsSize (removeFluidObserver t o).target.observers) o] := by
  have hmem' : o ∈ l := by simpa [setHas] using hmem
  by_cases hc : l.length - 1 = 0
  · simp [removeFluidObserver, hobs, hmem, hhook, setSize, hc, obsSize]
  · simp [removeFluidObserver, hobs, hmem, hhook, setSize, hc, obsSize, setDelete,
      List.length_erase_of_mem hmem']

/-- Witness for C6 in both branches: removing observer 1 from the
two-element set [1, 2] reports count 1 (the retained set has one element);
removing observer 7 from the singleton set [7] reports count 0 (the slot
was reset). -/
theorem c6_removed_hook_count_witness :
    (removeFluidObserver ⟨some 0, some [1, 2], false, true⟩ 1).hooks
      = [Hook.removed
          (obsSize (removeFluidObserver ⟨some 0, some [1, 2], false, true⟩ 1).target.observers)
          1] ∧
    (removeFluidObserver ⟨some 0, some [7], false, true⟩ 7).hooks
      = [Hook.removed
          (obsSize (removeFluidObserver ⟨some 0, some [7], false, true⟩ 7).target.observers)
          7] :=
  ⟨c6_removed_hook_count ⟨some 0, some [1, 2], false, true⟩ [1, 2] 1 rfl (by decide) rfl,
   c6_removed_hook_count ⟨some 0, some [7], false, true⟩ [7] 7 rfl (by decide) rfl⟩

/-- Claim C7: on a target without an installed getter, `addFluidObserver`
changes no state (no observer set is created, no observer registered, no
hook fired) and still returns the observer passed in. -/
theorem c7_add_on_nonfluid_noop (t : FluidObj) (o : Nat) (h : t.get = none) :
    addFluidObserver t o = { target := t, hooks := [], ret := o } := by
  simp [addFluidObserver, h]

/-- Witness for C7: adding observer 3 to a bare object (no getter, even
with the added hook present) changes nothing and returns 3. -/
theorem c7_add_on_nonfluid_noop_witness :
    addFluidObserver ⟨none, none, true, true⟩ 3
      = { target := ⟨none, none, true, true⟩, hooks := [], ret := 3 } :=
  c7_add_on_nonfluid_noop ⟨none, none, true, true⟩ 3 rfl

/-- Claim C8: unsubscription is idempotent.  When the target has no
observer set, or its set does not contain the observer, the call changes
no state and fires no hook; consequently (for the duplicate-free sets a JS
`Set` guarantees) a second `removeFluidObserver` right after a first one
is always a no-op. -/
theorem c8_idempotent_unsubscribe (t : FluidObj) (o : Nat) :
    ((t.observers = none ∨ ∃ l, t.observers = some l ∧ setHas l o = false) →
      removeFluidObserver t o = { target := t, hooks := [] }) ∧
    (∀ l, t.observers = some l → l.Nodup →
      removeFluidObserver (removeFluidObserver t o).target o
        = { target := (removeFluidObserver t o).target, hooks := [] }) := by
  constructor
  · rintro (hnone | ⟨l, hsome, hno⟩)
    · simp [removeFluidObserver, hnone]
    · simp [removeFluidObserver, hsome, hno]
  · intro l hsome hnd
    by_cases hmem : setHas l o = true
    · by_cases hc : setSize l - 1 = 0
      · have h1 : (removeFluidObserver t o).target = { t with observers := none } := by
          simp [removeFluidObserver, hsome, hmem, hc]
        rw [h1]
        simp [removeFluidObserver]
      · have h1 : (removeFluidObserver t o).target
            = { t with observers := some (setDelete l o) } := by
          simp [removeFluidObserver, hsome, hmem, hc]
        rw [h1]
        have hno : setHas (setDelete l o) o = false := by
          simpa [setHas, setDelete] using hnd.not_mem_erase
        simp [removeFluidObserver, hno]
    · have hno : setHas l o = false := by simpa using hmem
      have h1 : removeFluidObserver t o = { target := t, hooks := [] } := by
        simp [removeFluidObserver, hsome, hno]
      rw [h1]
      simp [removeFluidObserver, hsome, hno]

/-- Witness for C8: removing the never-added observer 9 from a target with
observer set [1] is a no-op, and removing observer 1 twice in a row leaves
the state of the first removal untouched with no hook fired. -/
theorem c8_idempotent_unsubscribe_witness :
    (removeFluidObserver ⟨some 0, some [1], false, true⟩ 9
      = { target := ⟨some 0, some [1], false, true⟩, hooks := [] }) ∧
    (removeFluidObserver
        (removeFluidObserver ⟨some 0, some [1], false, true⟩ 1).target 1
      = { target := (removeFluidObserver ⟨some 0, some [1], false, true⟩ 1).target,
          hooks := [] }) :=
  ⟨(c8_idempotent_unsubscribe ⟨some 0, some [1], false, true⟩ 9).1
      (Or.inr ⟨[1], rfl, by decide⟩),
   (c8_idempotent_unsubscribe ⟨some 0, some [1], false, true⟩ 1).2 [1] rfl
      (by decide)⟩

/-- Runtime shape and behaviour of an observer when it is invoked: whether
it carries an `eventObserved` method (a truthy property), and whether its
invocation raises an error. -/
structure ObsBeh where
  hasEventObserved : Bool
  throwsOnCall : Bool
deriving DecidableEq, Repr

/-- Which calling convention `callFluidObserver` resolved for a dispatch:
the `observer.eventObserved(event)` method call or the direct
`observer(event)` function call. -/
inductive CallKind where
  | method
  | func
deriving DecidableEq, Repr

/-- A recorded observer invocation: which observer, through which calling
convention, with which event value. -/
structure Call where
  obs : Nat
  kind : CallKind
  event : Val
deriving DecidableEq, Repr

/-- Embedding of `callFluidObserver` from src/src/index.ts: when the
observer exposes `eventObserved` that method is invoked with the event,
otherwise the observer itself is invoked with the event.  The result is
the recorded invocation together with the error the observer raised, if
any (`some o` identifies the raising observer; nothing is caught). -/
def callFluidObserver (beh : Nat → ObsBeh) (observer : Nat) (event : Val) :
    Call × Option Nat :=
  if (beh observer).hasEventObserved then
    (⟨observer, CallKind.method, event⟩,
      if (beh observer).throwsOnCall then some observer else none)
  else
    (⟨observer, CallKind.func, event⟩,
      if (beh observer).throwsOnCall then some observer else none)

/-- Iteration of `observers.forEach((observer) => callFluidObserver(...))`
over the insertion-ordered elements of the set: each observer is invoked
in turn; an error raised by one observer propagates out of the iteration
immediately, so the remaining observers are not invoked. -/
def runObserverList (beh : Nat → ObsBeh) (event : Val) :
    List Nat → List Call × Option Nat
  | [] => ([], none)
  | o :: rest =>
    match callFluidObserver beh o event with
    | (c, some e) => ([c], some e)
    | (c, none) =>
      match runObserverList beh event rest with
      | (tr, err) => (c :: tr, err)

/-- Embedding of `callFluidObservers` from src/src/index.ts: a falsy
observer slot means nothing happens (no call, no error, and the function
performs no writes at all, as its result type shows); a present set is
iterated with `forEach`, dispatching to each member in insertion order. -/
def callFluidObservers (beh : Nat → ObsBeh) (t : FluidObj) (event : Val) :
    List Call × Option Nat :=
  match t.observers with
  | some observers => runObserverList beh event observers
  | none => ([], none)

/-- Helper for C3: with no observer raising, the iteration dispatches to
exactly the listed observers, in order, and reports no error. -/
theorem runObserverList_no_throw (beh : Nat → ObsBeh) (event : Val)
    (l : List Nat) (hbeh : ∀ o ∈ l, (beh o).throwsOnCall = false) :
    runObserverList beh event l
      = (l.map (fun o => (callFluidObserver beh o event).1), none) := by
  induction l with
  | nil => rfl
  | cons o rest ih =>
    have ho : (beh o).throwsOnCall = false := hbeh o (List.mem_cons_self o rest)
    have hrest : ∀ x ∈ rest, (beh x).throwsOnCall = false := fun x hx =>
      hbeh x (List.mem_cons_of_mem o hx)
    have hsnd : (callFluidObserver beh o event).2 = none := by
      by_cases hm : (beh o).hasEventObserved <;>
        simp [callFluidObserver, hm, ho]
    rw [runObserverList]
    rcases hcall : callFluidObserver beh o event with ⟨c, err⟩
    cases err with
    | some e => rw [hcall] at hsnd; simp at hsnd
    | none => simp [ih hrest, hcall]

/-- Helper: the recorded invocation of `callFluidObserver` names the
dispatched observer and carries the event value unchanged. -/
theorem callFluidObserver_fst (beh : Nat → ObsBeh) (o : Nat) (event : Val) :
    (callFluidObserver beh o event).1.obs = o ∧
    (callFluidObserver beh o event).1.event = event := by
  by_cases hm : (beh o).hasEventObserved <;> simp [callFluidObserver, hm]

/-- Claim C3: with no observer raising, `callFluidObservers` on a target
without an observer set performs no call and raises no error (and, the
dispatcher being read-only, changes no state); on a target with observer
set `l` it raises no error, dispatches to exactly the members of `l` in
insertion order, passes every invocation the identical event value, and
(the set being duplicate-free) invokes each member exactly once. -/
theorem c3_broadcast_fan_out (beh : Nat → ObsBeh) (t : FluidObj) (event : Val)
    (hbeh : ∀ o, (beh o).throwsOnCall = false) :
    (t.observers = none → callFluidObservers beh t event = ([], none)) ∧
    (∀ l, t.observers = some l →
      (callFluidObservers beh t event).2 = none ∧
      (callFluidObservers beh t event).1.map Call.obs = l ∧
      (∀ c ∈ (callFluidObservers beh t event).1, c.event = event) ∧
      (l.Nodup → ∀ o ∈ l,
        ((callFluidObservers beh t event).1.map Call.obs).count o = 1)) := by
  constructor
  · intro hnone
    simp [callFluidObservers, hnone]
  · intro l hsome
    have hrun : callFluidObservers beh t event
        = (l.map (fun o => (callFluidObserver beh o event).1), none) := by
      rw [callFluidObservers, hsome]
      exact runObserverList_no_throw beh event l (fun o _ => hbeh o)
    have hmap : (l.map (fun o => (callFluidObserver beh o event).1)).map Call.obs
        = l := by
      rw [List.map_map]
      have : (Call.obs ∘ fun o => (callFluidObserver beh o event).1)
          = fun o => o := by
        funext o
        exact (callFluidObserver_fst beh o event).1
      rw [this]
      simp
    refine ⟨by rw [hrun], by rw [hrun]; exact hmap, ?_, ?_⟩
    · intro c hc
      rw [hrun] at hc
      simp only [List.mem_map] at hc
      rcases hc with ⟨o, _, rfl⟩
      exact (callFluidObserver_fst beh o event).2
    · intro hnd o ho
      rw [hrun]
      simp only
      rw [hmap]
      exact List.count_eq_one_of_mem hnd ho

/-- Witness for C3: broadcasting the number 1 to a target whose observer
set is [1, 2, 3] (no observer raising) reports no error and dispatches to
1, 2, 3 in insertion order. -/
theorem c3_broadcast_fan_out_witness :
    (callFluidObservers (fun _ => ⟨true, false⟩)
        ⟨some 0, some [1, 2, 3], false, false⟩ (Val.vnum 1)).2 = none ∧
    (callFluidObservers (fun _ => ⟨true, false⟩)
        ⟨some 0, some [1, 2, 3], false, false⟩ (Val.vnum 1)).1.map Call.obs
      = [1, 2, 3] := by
  have h := (c3_broadcast_fan_out (fun _ => ⟨true, false⟩)
      ⟨some 0, some [1, 2, 3], false, false⟩ (Val.vnum 1) (fun _ => rfl)).2
      [1, 2, 3] rfl
  exact ⟨h.1, h.2.1⟩

/-- Helper: the error reported by a single dispatch is exactly the
raising observer, and nothing when the observer returns normally. -/
theorem callFluidObserver_snd (beh : Nat → ObsBeh) (o : Nat) (event : Val) :
    (callFluidObserver beh o event).2
      = if (beh o).throwsOnCall then some o else none := by
  by_cases hm : (beh o).hasEventObserved <;> simp [callFluidObserver, hm]

/-- Claim C9: observer failures are not caught.  On a target with
observers [a, b, c] in insertion order, when a returns normally and b
raises, the broadcast dispatches to a then b, the error of b propagates
out of `callFluidObservers`, and c (distinct from a and b) is never
invoked in that call. -/
theorem c9_observer_error_aborts (beh : Nat → ObsBeh) (t : FluidObj)
    (event : Val) (a b c : Nat) (hobs : t.observers = some [a, b, c])
    (ha : (beh a).throwsOnCall = false) (hb : (beh b).throwsOnCall = true)
    (hca : c ≠ a) (hcb : c ≠ b) :
    (callFluidObservers beh t event).1.map Call.obs = [a, b] ∧
    (callFluidObservers beh t event).2 = some b ∧
    c ∉ (callFluidObservers beh t event).1.map Call.obs := by
  have key : (callFluidObservers beh t event).1.map Call.obs = [a, b] ∧
      (callFluidObservers beh t event).2 = some b := by
    by_cases hma : (beh a).hasEventObserved <;>
      by_cases hmb : (beh b).hasEventObserved <;>
        simp [callFluidObservers, hobs, runObserverList, callFluidObserver,
          hma, hmb, ha, hb]
  refine ⟨key.1, key.2, ?_⟩
  rw [key.1]
  simp [hca, hcb]

/-- Witness for C9: observers [1, 2, 3], observer 2 raises: the trace is
[1, 2], the error of 2 propagates, observer 3 is not invoked. -/
theorem c9_observer_error_aborts_witness :
    (callFluidObservers (fun o => ⟨false, o == 2⟩)
        ⟨some 0, some [1, 2, 3], false, false⟩ (Val.vnum 1)).1.map Call.obs
      = [1, 2] ∧
    (callFluidObservers (fun o => ⟨false, o == 2⟩)
        ⟨some 0, some [1, 2, 3], false, false⟩ (Val.vnum 1)).2 = some 2 ∧
    3 ∉ (callFluidObservers (fun o => ⟨false, o == 2⟩)
        ⟨some 0, some [1, 2, 3], false, false⟩ (Val.vnum 1)).1.map Call.obs :=
  c9_observer_error_aborts (fun o => ⟨false, o == 2⟩)
    ⟨some 0, some [1, 2, 3], false, false⟩ (Val.vnum 1) 1 2 3 rfl rfl rfl
    (by decide) (by decide)

/-- An operation on the observer registry of a target: the two mutations
of the subscribe/unsubscribe lifecycle. -/
inductive Op where
  | add (observer : Nat)
  | remove (observer : Nat)
deriving DecidableEq, Repr

/-- State of the target after one registry operation (the hooks and the
returned observer are dropped, only the state is threaded). -/
def applyOp (t : FluidObj) : Op → FluidObj
  | .add o => (addFluidObserver t o).target
  | .remove o => (removeFluidObserver t o).target

/-- State of the target after a sequence of registry operations, applied
left to right. -/
def applyOps (t : FluidObj) (ops : List Op) : FluidObj :=
  ops.foldl applyOp t

/-- The observer-slot invariant of the spec: the slot is the absent/null
sentinel or a non-empty set, never an empty-but-present set. -/
def obsInvariantB (t : FluidObj) : Bool :=
  match t.observers with
  | none => true
  | some l => !l.isEmpty

/-- Helper for C4: a single registry operation preserves the
never-empty-but-present invariant of the observer slot. -/
theorem applyOp_obsInvariant (t : FluidObj) (op : Op)
    (h : obsInvariantB t = true) : obsInvariantB (applyOp t op) = true := by
  cases op with
  | add o =>
    by_cases hg : t.get.isSome
    · cases hobs : t.observers with
      | none =>
        have htar : (addFluidObserver t o).target.observers = some [o] := by
          simp [addFluidObserver, hg, hobs, setHas, setAdd]
        simp [applyOp, obsInvariantB, htar]
      | some l =>
        by_cases hmem : setHas l o = true
        · have htar : (addFluidObserver t o).target = t := by
            simp [addFluidObserver, hg, hobs, hmem]
          rw [applyOp, htar]
          exact h
        · have hnotmem : o ∉ l := by simpa [setHas] using hmem
          have htar : (addFluidObserver t o).target.observers
              = some (l ++ [o]) := by
            simp [addFluidObserver, hg, hobs, setHas, setAdd, hnotmem]
          simp [applyOp, obsInvariantB, htar]
    · have htar : (addFluidObserver t o).target = t := by
        simp [addFluidObserver, hg]
      rw [applyOp, htar]
      exact h
  | remove o =>
    cases hobs : t.observers with
    | none =>
      have htar : (removeFluidObserver t o).target = t := by
        simp [removeFluidObserver, hobs]
      rw [applyOp, htar]
      exact h
    | some l =>
      by_cases hmem : setHas l o = true
      · by_cases hc : setSize l - 1 = 0
        · have htar : (removeFluidObserver t o).target.observers = none := by
            simp [removeFluidObserver, hobs, hmem, hc]
          simp [applyOp, obsInvariantB, htar]
        · have hmem' : o ∈ l := by simpa [setHas] using hmem
          have hlen := List.length_erase_of_mem hmem'
          have htar : (removeFluidObserver t o).target.observers
              = some (l.erase o) := by
            simp [removeFluidObserver, hobs, hmem, hc, setDelete]
          simp only [applyOp, obsInvariantB, htar, Bool.not_eq_eq_eq_not,
            Bool.not_true]
          rcases hE : l.erase o with _ | ⟨x, xs⟩
          · rw [hE] at hlen
            simp [setSize] at hc hlen
            omega
          · simp
      · have htar : (removeFluidObserver t o).target = t := by
          simp [removeFluidObserver, hobs, hmem]
        rw [applyOp, htar]
        exact h

/-- Helper for C4: the invariant is preserved by every operation
sequence. -/
theorem applyOps_obsInvariant (ops : List Op) (t : FluidObj)
    (h : obsInvariantB t = true) : obsInvariantB (applyOps t ops) = true := by
  induction ops generalizing t with
  | nil => exact h
  | cons op rest ih =>
    exact ih (applyOp t op) (applyOp_obsInvariant t op h)

/-- Claim C4: starting from a state satisfying the slot invariant, after
every sequence of add/remove operations the observer slot is still either
the absent/null sentinel or a non-empty set; in particular, on a fluid
target with no observers, adding one observer and then removing it leaves
`getFluidObservers` returning the null sentinel, not an empty set. -/
theorem c4_never_empty_but_present (t : FluidObj) (ops : List Op)
    (h : obsInvariantB t = true) :
    obsInvariantB (applyOps t ops) = true ∧
    (∀ o, t.get.isSome = true → t.observers = none →
      getFluidObserversE (Val.vobj (applyOps t [Op.add o, Op.remove o]))
        = .ok none) := by
  constructor
  · exact applyOps_obsInvariant ops t h
  · intro o hg hobs
    have h1 : (addFluidObserver t o).target = { t with observers := some [o] } := by
      simp [addFluidObserver, hg, hobs, setHas, setAdd]
    have h2 : (removeFluidObserver { t with observers := some [o] } o).target
        = { t with observers := none } := by
      simp [removeFluidObserver, setHas, setSize, setDelete]
    simp [applyOps, applyOp, h1, h2, getFluidObserversE, readObservers]

/-- Witness for C4: from a fluid target with the invariant holding, the
sequence add 1, add 2, remove 1 keeps the invariant, and add 4 followed by
remove 4 leaves the null sentinel. -/
theorem c4_never_empty_but_present_witness :
    obsInvariantB (applyOps ⟨some 0, none, true, true⟩
      [Op.add 1, Op.add 2, Op.remove 1]) = true ∧
    getFluidObserversE (Val.vobj (applyOps ⟨some 0, none, true, true⟩
      [Op.add 4, Op.remove 4])) = .ok none :=
  ⟨(c4_never_empty_but_present ⟨some 0, none, true, true⟩
      [Op.add 1, Op.add 2, Op.remove 1] rfl).1,
   (c4_never_empty_but_present ⟨some 0, none, true, true⟩ [] rfl).2 4 rfl rfl⟩

/-- Helper for C10: one registry operation never writes the getter slot. -/
theorem applyOp_get (t : FluidObj) (op : Op) : (applyOp t op).get = t.get := by
  cases op with
  | add o =>
    by_cases hg : t.get.isSome <;>
      by_cases hmem : setHas (t.observers.getD []) o = true <;>
        simp [applyOp, addFluidObserver, hg, hmem]
  | remove o =>
    cases hobs : t.observers with
    | none => simp [applyOp, removeFluidObserver, hobs]
    | some l =>
      by_cases hmem : setHas l o = true
      · by_cases hc : setSize l - 1 = 0 <;>
          simp [applyOp, removeFluidObserver, hobs, hmem, hc]
      · simp [applyOp, removeFluidObserver, hobs, hmem]

/-- Helper for C10: no sequence of registry operations writes the getter
slot. -/
theorem applyOps_get (t : FluidObj) (ops : List Op) :
    (applyOps t ops).get = t.get := by
  induction ops generalizing t with
  | nil => rfl
  | cons op rest ih => exact (ih (applyOp t op)).trans (applyOp_get t op)

/-- Claim C10: subscription operations never touch the value-getter slot.
After any sequence of add/remove operations the getter slot is unchanged,
`hasFluidValue` answers exactly as before, and `getFluidValue` behaves
exactly as before: on a fluid target it returns the same getter result on
both states, and on a non-fluid target it passes its argument through on
both states (in JS the argument is the very same object before and
after, the operations having mutated it in place). -/
theorem c10_subscription_frame (genv : Nat → Val) (t : FluidObj)
    (ops : List Op) :
    (applyOps t ops).get = t.get ∧
    hasFluidValueE (Val.vobj (applyOps t ops)) = hasFluidValueE (Val.vobj t) ∧
    (∀ g, t.get = some g →
      getFluidValueE genv (Val.vobj (applyOps t ops)) = .ok (genv g) ∧
      getFluidValueE genv (Val.vobj t) = .ok (genv g)) ∧
    (t.get = none →
      getFluidValueE genv (Val.vobj (applyOps t ops))
        = .ok (Val.vobj (applyOps t ops)) ∧
      getFluidValueE genv (Val.vobj t) = .ok (Val.vobj t)) := by
  have hget := applyOps_get t ops
  refine ⟨hget, ?_, ?_, ?_⟩
  · simp [hasFluidValueE, truthy, readGet, hget]
  · intro g hg
    constructor <;> simp [getFluidValueE, truthy, readGet, hget, hg]
  · intro hg
    constructor <;> simp [getFluidValueE, truthy, readGet, hget, hg]

/-- Witness for C10: on a fluid target with getter 0 (returning 7), after
add 1, add 2, remove 2 the getter slot, `hasFluidValue`, and
`getFluidValue` answer exactly as on the initial state. -/
theorem c10_subscription_frame_witness :
    (applyOps ⟨some 0, none, true, true⟩
      [Op.add 1, Op.add 2, Op.remove 2]).get = some 0 ∧
    hasFluidValueE (Val.vobj (applyOps ⟨some 0, none, true, true⟩
        [Op.add 1, Op.add 2, Op.remove 2]))
      = hasFluidValueE (Val.vobj ⟨some 0, none, true, true⟩) ∧
    getFluidValueE (fun _ => Val.vnum 7)
        (Val.vobj (applyOps ⟨some 0, none, true, true⟩
          [Op.add 1, Op.add 2, Op.remove 2]))
      = .ok (Val.vnum 7) := by
  have h := c10_subscription_frame (fun _ => Val.vnum 7)
    ⟨some 0, none, true, true⟩ [Op.add 1, Op.add 2, Op.remove 2]
  exact ⟨h.1, h.2.1, (h.2.2.1 0 rfl).1⟩
